import Mathlib

/-!
Verification of the Chat-DB natural-language-to-SQL pipeline
(`utilities.py`: `get_db_schema`, `get_sql_query`, `execute_query`,
`text2sql`).  External collaborators (the SQLAlchemy engine, the Gemini
completion client, `pandas.read_sql_query`) are modelled as oracle
functions carried by the engine / client values; Python exceptions at
those boundaries are modelled with `Except`.  Python strings are Lean
strings, Python values appearing in the pipeline are modelled by the
`PyVal` universe, and `json.loads` is modelled by an executable strict
JSON parser (`json_loads`).
-/

/-! Python-style string helpers.  They model CPython `str.strip`,
`str.lstrip`, `str.lower` (restricted to ASCII letters, the only ones the
pipeline compares), `str.replace` and `str.startswith` on the code-point
level (`String.data`). -/

def isPySpace (c : Char) : Bool :=
  c = ' ' || c = '\t' || c = '\n' || c = '\r' || c = '\x0b' || c = '\x0c'

def pyLStripL (l : List Char) : List Char := l.dropWhile isPySpace

def pyStripL (l : List Char) : List Char :=
  ((l.dropWhile isPySpace).reverse.dropWhile isPySpace).reverse

def pyStrip (s : String) : String := String.mk (pyStripL s.data)

def lowerChar (c : Char) : Char :=
  if 'A' ≤ c ∧ c ≤ 'Z' then Char.ofNat (c.toNat + 32) else c

def lowerL (l : List Char) : List Char := l.map lowerChar

def pyLower (s : String) : String := String.mk (lowerL s.data)

/-- Model of CPython `str.replace`: leftmost non-overlapping occurrences of
`pat` are replaced by `rep`.  Recursion is by fuel; each step consumes at
least one character, so fuel `length + 1` realizes the full scan. -/
def replaceF (pat rep : List Char) : Nat → List Char → List Char
  | 0, s => s
  | _, [] => []
  | Nat.succ n, c :: cs =>
      if pat ≠ [] ∧ List.isPrefixOf pat (c :: cs) then
        rep ++ replaceF pat rep n (List.drop pat.length (c :: cs))
      else
        c :: replaceF pat rep n cs

def pyReplace (s pat rep : String) : String :=
  String.mk (replaceF pat.data rep.data (s.data.length + 1) s.data)

/-- Substring test (`pat` occurs contiguously in the second list). -/
def isSubL (pat : List Char) : List Char → Bool
  | [] => List.isPrefixOf pat []
  | c :: cs => List.isPrefixOf pat (c :: cs) || isSubL pat cs

def strContains (s pat : String) : Bool := isSubL pat.data s.data

/-! The tabular result of `pandas.read_sql_query` (column names and rows);
its contents are opaque payload for the pipeline. -/

structure DataFrame where
  cols : List String
  rows : List (List String)
deriving DecidableEq

/-- Universe of Python values flowing through the pipeline: `json.loads`
results, the dictionaries built by `get_sql_query`, and the values returned
by `text2sql` / `execute_query`.  `PyVal.none` models Python `None`; JSON
numbers keep their literal text (`num`), which the pipeline never inspects. -/
inductive PyVal where
  | none
  | bool (b : Bool)
  | num (lit : String)
  | str (s : String)
  | list (xs : List PyVal)
  | dict (kvs : List (String × PyVal))
  | frame (d : DataFrame)

/-- Python `dict` insertion: an existing key keeps its position and gets the
new value, a new key is appended.  `json.loads` builds objects this way, so
duplicate keys resolve to the last value. -/
def dictInsert (kvs : List (String × PyVal)) (k : String) (v : PyVal) :
    List (String × PyVal) :=
  if kvs.any (fun p => p.1 == k) then
    kvs.map (fun p => if p.1 == k then (k, v) else p)
  else
    kvs ++ [(k, v)]

/-- Python `"k" in d` on the dictionaries used by the pipeline. -/
def hasKey (k : String) (kvs : List (String × PyVal)) : Bool :=
  (List.lookup k kvs).isSome

/-! Model of `json.loads` (strict JSON as accepted by the CPython `json`
module, including the `NaN` / `Infinity` extensions).  The parser works on
`List Char` with explicit fuel; `json_loads` supplies fuel ample for the
whole input, so exhaustion only models the deep-nesting failure mode. -/

def skipWs (l : List Char) : List Char :=
  l.dropWhile (fun c => c = ' ' || c = '\t' || c = '\n' || c = '\r')

def hexVal (c : Char) : Option Nat :=
  if c.isDigit then some (c.toNat - 48)
  else if 'a' ≤ c ∧ c ≤ 'f' then some (c.toNat - 87)
  else if 'A' ≤ c ∧ c ≤ 'F' then some (c.toNat - 55)
  else Option.none

def hex4 : List Char → Option (Nat × List Char)
  | a :: b :: c :: d :: r =>
      match hexVal a, hexVal b, hexVal c, hexVal d with
      | some x, some y, some z, some w =>
          some (((x * 16 + y) * 16 + z) * 16 + w, r)
      | _, _, _, _ => Option.none
  | _ => Option.none

/-- JSON string body (after the opening quote), with the standard escapes;
surrogate pairs combine into one character, a lone surrogate degrades to
`Char.ofNat`s fallback (Lean `Char` cannot hold it). -/
def parseStrF : Nat → List Char → List Char → Option (String × List Char)
  | 0, _, _ => Option.none
  | Nat.succ n, acc, s =>
      match s with
      | [] => Option.none
      | '"' :: r => some (String.mk acc.reverse, r)
      | '\\' :: e :: r =>
          match e with
          | '"' => parseStrF n ('"' :: acc) r
          | '\\' => parseStrF n ('\\' :: acc) r
          | '/' => parseStrF n ('/' :: acc) r
          | 'b' => parseStrF n ('\x08' :: acc) r
          | 'f' => parseStrF n ('\x0c' :: acc) r
          | 'n' => parseStrF n ('\n' :: acc) r
          | 'r' => parseStrF n ('\r' :: acc) r
          | 't' => parseStrF n ('\t' :: acc) r
          | 'u' =>
              match hex4 r with
              | some (code, r2) =>
                  if 0xD800 ≤ code ∧ code ≤ 0xDBFF then
                    match r2 with
                    | '\\' :: 'u' :: r3 =>
                        match hex4 r3 with
                        | some (lo, r4) =>
                            if 0xDC00 ≤ lo ∧ lo ≤ 0xDFFF then
                              parseStrF n
                                (Char.ofNat (0x10000 + (code - 0xD800) * 0x400 +
                                  (lo - 0xDC00)) :: acc) r4
                            else parseStrF n (Char.ofNat code :: acc) r2
                        | Option.none => parseStrF n (Char.ofNat code :: acc) r2
                    | _ => parseStrF n (Char.ofNat code :: acc) r2
                  else parseStrF n (Char.ofNat code :: acc) r2
              | Option.none => Option.none
          | _ => Option.none
      | '\\' :: [] => Option.none
      | c :: r =>
          if c.toNat < 0x20 then Option.none else parseStrF n (c :: acc) r

def parseExpPart (neg mant : List Char) (s : List Char) :
    Option (String × List Char) :=
  match s with
  | c :: r =>
      if c = 'e' ∨ c = 'E' then
        let sgnr : List Char × List Char :=
          match r with
          | '+' :: r2 => (['+'], r2)
          | '-' :: r2 => (['-'], r2)
          | _ => ([], r)
        let ds := sgnr.2.takeWhile Char.isDigit
        if ds = [] then Option.none
        else some (String.mk (neg ++ mant ++ c :: sgnr.1 ++ ds),
                   sgnr.2.dropWhile Char.isDigit)
      else some (String.mk (neg ++ mant), c :: r)
  | [] => some (String.mk (neg ++ mant), [])

def parseFracPart (neg intPart : List Char) (s : List Char) :
    Option (String × List Char) :=
  match s with
  | '.' :: r =>
      let ds := r.takeWhile Char.isDigit
      if ds = [] then Option.none
      else parseExpPart neg (intPart ++ '.' :: ds) (r.dropWhile Char.isDigit)
  | _ => parseExpPart neg intPart s

/-- JSON number lexeme (`-? int frac? exp?`), returned as literal text. -/
def parseNumber (s : List Char) : Option (String × List Char) :=
  let negr : List Char × List Char :=
    match s with
    | '-' :: r => (['-'], r)
    | _ => ([], s)
  match negr.2 with
  | '0' :: r => parseFracPart negr.1 ['0'] r
  | c :: r =>
      if c.isDigit then
        parseFracPart negr.1 (c :: r.takeWhile Char.isDigit)
          (r.dropWhile Char.isDigit)
      else Option.none
  | [] => Option.none

inductive JParseMode where
  | value
  | arrItems (acc : List PyVal)
  | objItems (acc : List (String × PyVal))

inductive JParseRes where
  | val (v : PyVal) (rest : List Char)
  | arr (xs : List PyVal) (rest : List Char)
  | obj (kvs : List (String × PyVal)) (rest : List Char)

/-- Recursive-descent JSON parser; all recursion strictly decreases the
fuel, which `json_loads` sets generously for the input length. -/
def parseF : Nat → JParseMode → List Char → Option JParseRes
  | 0, _, _ => Option.none
  | Nat.succ fuel, JParseMode.value, s =>
      match skipWs s with
      | [] => Option.none
      | '\x7b' :: r =>
          match skipWs r with
          | '\x7d' :: r2 => some (JParseRes.val (PyVal.dict []) r2)
          | r1 =>
              match parseF fuel (JParseMode.objItems []) r1 with
              | some (JParseRes.obj kvs rest) =>
                  some (JParseRes.val (PyVal.dict kvs) rest)
              | _ => Option.none
      | '[' :: r =>
          match skipWs r with
          | ']' :: r2 => some (JParseRes.val (PyVal.list []) r2)
          | r1 =>
              match parseF fuel (JParseMode.arrItems []) r1 with
              | some (JParseRes.arr xs rest) =>
                  some (JParseRes.val (PyVal.list xs) rest)
              | _ => Option.none
      | '"' :: r =>
          match parseStrF (r.length + 1) [] r with
          | some (str, rest) => some (JParseRes.val (PyVal.str str) rest)
          | Option.none => Option.none
      | c :: r =>
          if List.isPrefixOf "null".data (c :: r) then
            some (JParseRes.val PyVal.none (List.drop 4 (c :: r)))
          else if List.isPrefixOf "true".data (c :: r) then
            some (JParseRes.val (PyVal.bool true) (List.drop 4 (c :: r)))
          else if List.isPrefixOf "false".data (c :: r) then
            some (JParseRes.val (PyVal.bool false) (List.drop 5 (c :: r)))
          else if List.isPrefixOf "NaN".data (c :: r) then
            some (JParseRes.val (PyVal.num "NaN") (List.drop 3 (c :: r)))
          else if List.isPrefixOf "Infinity".data (c :: r) then
            some (JParseRes.val (PyVal.num "Infinity") (List.drop 8 (c :: r)))
          else if List.isPrefixOf "-Infinity".data (c :: r) then
            some (JParseRes.val (PyVal.num "-Infinity") (List.drop 9 (c :: r)))
          else
            match parseNumber (c :: r) with
            | some (lit, rest) => some (JParseRes.val (PyVal.num lit) rest)
            | Option.none => Option.none
  | Nat.succ fuel, JParseMode.arrItems acc, s =>
      match parseF fuel JParseMode.value s with
      | some (JParseRes.val v rest) =>
          match skipWs rest with
          | ',' :: r2 => parseF fuel (JParseMode.arrItems (acc ++ [v])) r2
          | ']' :: r2 => some (JParseRes.arr (acc ++ [v]) r2)
          | _ => Option.none
      | _ => Option.none
  | Nat.succ fuel, JParseMode.objItems acc, s =>
      match skipWs s with
      | '"' :: r =>
          match parseStrF (r.length + 1) [] r with
          | some (k, rest) =>
              match skipWs rest with
              | ':' :: r2 =>
                  match parseF fuel JParseMode.value r2 with
                  | some (JParseRes.val v rest2) =>
                      match skipWs rest2 with
                      | ',' :: r3 =>
                          parseF fuel (JParseMode.objItems (dictInsert acc k v)) r3
                      | '\x7d' :: r3 =>
                          some (JParseRes.obj (dictInsert acc k v) r3)
                      | _ => Option.none
                  | _ => Option.none
              | _ => Option.none
          | Option.none => Option.none
      | _ => Option.none

/-- Model of `json.loads`: parse one value, then require only whitespace to
remain (CPython raises `JSONDecodeError` on extra data).  `Option.none`
models a raised `JSONDecodeError`. -/
def json_loads (s : String) : Option PyVal :=
  match parseF (4 * s.data.length + 16) JParseMode.value s.data with
  | some (JParseRes.val v rest) =>
      if skipWs rest = [] then some v else Option.none
  | _ => Option.none

/-! The completion client (`genai_client.generate_content` followed by the
`.text` access) is a text-in / text-out oracle; `Except.error m` models a
raised exception whose `str` is `m`. -/

def GenaiClient : Type := String → Except String String

/-- The SQLAlchemy engine as the pipeline sees it: the dialect name and
oracle functions for every database touch, each able to raise
(`Except.error`).  `mysqlShowCreate t` is `fetchone` of
`SHOW CREATE TABLE`, `sqliteMasterSql t` is `fetchone` of the
`sqlite_master` lookup (outer `Option` = no row, inner = NULL column),
`getColumns` is `inspector.get_columns` as (name, type) pairs, and
`runQuery` is `pd.read_sql_query(text(q), conn)` on the passed value. -/
structure EngineData where
  dialectName : String
  getTableNames : Except String (List String)
  mysqlShowCreate : String → Except String (Option (String × String))
  sqliteMasterSql : String → Except String (Option (Option String))
  getColumns : String → Except String (List (String × String))
  runQuery : PyVal → Except String DataFrame

/-- A value passed where an engine is expected: either a real engine or a
non-`Engine` Python value, remembered by the text of its `type()`. -/
inductive EngineInput where
  | engine (e : EngineData)
  | notEngine (typeName : String)

/-! `get_db_schema` (utilities.py lines 8-52). -/

def schemaBlock (table create_stmt : String) : String :=
  "**" ++ table ++ " table:**\n```sql\n" ++ create_stmt ++ "\n```\n\n"

def schemaPlaceholder (t : String) : String :=
  "/* CREATE statement not found for " ++ t ++ " */"

/-- MySQL branch: `row[1] if row is not None else "/* could not fetch */"`. -/
def mysqlCreateStmt (row : Option (String × String)) : String :=
  match row with
  | some r => r.2
  | Option.none => "/* could not fetch */"

/-- SQLite branch: `row[0] if row and row[0] else placeholder` (a missing
row, a NULL column and an empty string are all falsy). -/
def sqliteCreateStmt (t : String) (row : Option (Option String)) : String :=
  match row with
  | some (some s) => if s = "" then schemaPlaceholder t else s
  | _ => schemaPlaceholder t

/-- Generic branch: `CREATE TABLE t (name type, ...);` from the inspector
columns. -/
def genericCreateStmt (t : String) (cols : List (String × String)) : String :=
  "CREATE TABLE " ++ t ++ " (" ++
    String.intercalate ", " (cols.map (fun c => c.1 ++ " " ++ c.2)) ++ ");"

/-- One table of the per-dialect loop bodies of `get_db_schema`: fetch the
CREATE statement for `t` under the given (lowered) dialect.  The source has
one loop per dialect branch; since the dialect is fixed across the loop,
dispatching per table is the same function. -/
def tableCreateStmt (e : EngineData) (dialect t : String) :
    Except String String :=
  if dialect = "mysql" then
    match e.mysqlShowCreate t with
    | Except.ok row => Except.ok (mysqlCreateStmt row)
    | Except.error ex => Except.error ex
  else if dialect = "sqlite" then
    match e.sqliteMasterSql t with
    | Except.ok row => Except.ok (sqliteCreateStmt t row)
    | Except.error ex => Except.error ex
  else
    match e.getColumns t with
    | Except.ok cols => Except.ok (genericCreateStmt t cols)
    | Except.error ex => Except.error ex

/-- The `schema += block` accumulation loop; the first raised exception
aborts the whole `try` body. -/
def schemaLoop (e : EngineData) (dialect : String) :
    List String → Except String String
  | [] => Except.ok ""
  | t :: ts =>
      match tableCreateStmt e dialect t with
      | Except.error ex => Except.error ex
      | Except.ok stmt =>
          match schemaLoop e dialect ts with
          | Except.error ex => Except.error ex
          | Except.ok rest => Except.ok (schemaBlock t stmt ++ rest)

def get_db_schema (engine : EngineInput) : String :=
  match engine with
  | EngineInput.notEngine _ => "❌ Invalid engine passed to get_db_schema()"
  | EngineInput.engine e =>
      match e.getTableNames with
      | Except.error ex => "❌ Error loading DB schema: " ++ ex
      | Except.ok tables =>
          if tables = [] then "⚠️ No tables found in the connected database."
          else
            match schemaLoop e (pyLower e.dialectName) tables with
            | Except.ok s => s
            | Except.error ex => "❌ Error loading DB schema: " ++ ex

/-! `get_sql_query` (utilities.py lines 55-97). -/

def llmContents (prompt_text query : String) : String :=
  prompt_text ++ "\n\nUser Question:\n" ++ query

/-- The normalization stage: strip, remove the fenced-code-block delimiters
(with the `json` / `sql` tags) everywhere, strip, then drop one leading
case-insensitive `"sql "` token and strip again. -/
def cleanResponse (response_text : String) : String :=
  let ai_text := pyStrip response_text
  let cleaned :=
    pyStrip (pyReplace (pyReplace (pyReplace ai_text "```json" "") "```sql" "") "```" "")
  if List.isPrefixOf "sql ".data (lowerL cleaned.data) then
    pyStrip (String.mk (cleaned.data.drop 4))
  else cleaned

def errDict (msg : String) : List (String × PyVal) :=
  [("status", PyVal.str "error"), ("response", PyVal.str msg)]

def sql_verbs : List String :=
  ["select", "show", "insert", "update", "delete", "create", "drop", "alter"]

/-- `any(sql_candidate.lower().lstrip().startswith(v) for v in sql_verbs)`. -/
def sqlVerbCheck (s : String) : Bool :=
  sql_verbs.any (fun v => List.isPrefixOf v.data (pyLStripL (lowerL s.data)))

/-- The parsing stage of `get_sql_query` applied to the already-normalized
text: JSON first, then the plain-SQL heuristic. -/
def interpretResponse (cleaned : String) : List (String × PyVal) :=
  match json_loads cleaned with
  | some (PyVal.dict kvs) =>
      if hasKey "status" kvs && hasKey "response" kvs then kvs
      else errDict ("Model returned JSON but missing keys: " ++ cleaned)
  | some _ => errDict ("Model returned JSON but missing keys: " ++ cleaned)
  | Option.none =>
      if cleaned = "" then errDict "Model returned empty response."
      else if sqlVerbCheck cleaned then
        [("status", PyVal.str "success"), ("response", PyVal.str cleaned)]
      else errDict ("Model returned unexpected format:\n" ++ cleaned)

def get_sql_query (genai_client : GenaiClient) (prompt_text query : String) :
    List (String × PyVal) :=
  match genai_client (llmContents prompt_text query) with
  | Except.error e => errDict ("AI communication error: " ++ e)
  | Except.ok t => interpretResponse (cleanResponse t)

/-! `execute_query` (utilities.py lines 100-114). -/

def execute_query (query : PyVal) (engine : EngineInput) : PyVal :=
  match engine with
  | EngineInput.notEngine tyName =>
      PyVal.str ("❌ execute_query expected SQLAlchemy Engine, got " ++ tyName)
  | EngineInput.engine e =>
      match e.runQuery query with
      | Except.ok d => PyVal.frame d
      | Except.error ex => PyVal.str ("❌ SQL Execution Error: " ++ ex)

/-! `text2sql` (utilities.py lines 117-156) and its fixed prompt
(constants.py). -/

def constants_prompt : String :=
  "\nYou are an expert SQL engineer. Given a database schema and a user's natural-language question,\nwrite a **clear, valid, and production-ready SQL query** compatible with the specified database type\n(MySQL or SQLite) and the provided schema.\n\nOutput format options:\n1) A JSON object with keys \"status\" and \"response\":\n   - \"status\": one of \"success\", \"clarification_needed\", \"error\"\n   - \"response\": the SQL query (as a single string) or a clarifying question / error message\n\n2) Or a plain SQL statement (like `SELECT ...;`) — this is treated as success automatically.\n\nImportant SQL Style Rules:\n- Always use **explicit aliases** for computed or aggregated columns.  \n  ✅ Example: `COUNT(*) AS total_employees`, `AVG(price) AS average_price`, `SUM(amount) AS total_sales`\n- Always use **readable lowercase alias names** (snake_case style preferred).\n- Avoid unnamed or auto-generated columns like `_col0`, `count(*)`, or `sum(price)`.\n- Prefer meaningful, context-based names (e.g., `AS total_orders`, not `AS result`).\n- Do NOT include explanations, markdown, or extra commentary — only SQL or JSON.\n- Ensure your SQL works for the given database type and schema.\n- If clarification is needed, respond with a JSON object:\n  \x7b\"status\": \"clarification_needed\", \"response\": \"Explain which date column to filter by.\"\x7d\n\nExamples of correct responses:\n✅ \x7b\"status\": \"success\", \"response\": \"SELECT department, COUNT(*) AS total_employees FROM employees GROUP BY department;\"\x7d\n✅ SELECT name, AVG(salary) AS average_salary FROM employees GROUP BY name;\n\nSchema:\n\x7bschemas\x7d\n"

def dbTypeName (dialect : String) : String :=
  if dialect = "mysql" then "MySQL"
  else if dialect = "sqlite" then "SQLite"
  else dialect

/-- The contextual prompt f-string assembled in `text2sql`. -/
def contextualPrompt (db_type db_schema : String) : String :=
  "\n        " ++ constants_prompt ++
  "\n\n        Connected database type: " ++ db_type ++
  "\n        Here is the database schema (DDL):\n        " ++ db_schema ++
  "\n\n        Important: produce SQL compatible with " ++ db_type ++
  ". Output either:\n        - A JSON object: \x7b \"status\": \"success\", \"response\": \"<SQL query>\" \x7d or\n        - Plain SQL (e.g. SELECT ...;). If plain SQL is returned, it will be treated as success.\n        Do NOT include explanatory text alongside the SQL.\n    "

/-- `output.get("status") == "success"` on the interpreter result. -/
def statusIsSuccess (kvs : List (String × PyVal)) : Bool :=
  match List.lookup "status" kvs with
  | some (PyVal.str s) => s == "success"
  | _ => false

/-- External touches of one `text2sql` run, recorded in order: the schema
introspection (`get_db_schema`), the completion-service call
(`get_sql_query` always performs exactly one), and the SQL execution. -/
inductive CallEvent where
  | introspect
  | llmCall
  | sqlExec
deriving DecidableEq

/-- The spec reads the interpreter dictionary as a tagged outcome: the
`status` value `"success"` is `Success`, `"clarification_needed"` is
`ClarificationNeeded`, anything else (other values, non-strings, a missing
key) is `Error`. -/
inductive OutcomeTag where
  | Success
  | ClarificationNeeded
  | Error
deriving DecidableEq

def outcomeTag (kvs : List (String × PyVal)) : OutcomeTag :=
  match List.lookup "status" kvs with
  | some (PyVal.str s) =>
      if s = "success" then OutcomeTag.Success
      else if s = "clarification_needed" then OutcomeTag.ClarificationNeeded
      else OutcomeTag.Error
  | _ => OutcomeTag.Error

/-- `text2sql`, instrumented with the trace of external touches.  The first
component of the result pair is Python `None` (`PyVal.none`) or the SQL
value handed to the executor; the second is the warning / outcome message
or the executor result. -/
def text2sql (genai_client : GenaiClient) (user_query : String)
    (engine : EngineInput) : (PyVal × PyVal) × List CallEvent :=
  if user_query = "" ∨ (pyStrip user_query).data.length < 3 then
    ((PyVal.none, PyVal.str "⚠️ Please enter a meaningful question."), [])
  else
    match engine with
    | EngineInput.notEngine _ =>
        ((PyVal.none,
          PyVal.str "❌ Internal error: engine is not a SQLAlchemy Engine."),
         [])
    | EngineInput.engine e =>
        let dialect := pyLower e.dialectName
        let db_type := dbTypeName dialect
        let db_schema := get_db_schema (EngineInput.engine e)
        let output :=
          get_sql_query genai_client (contextualPrompt db_type db_schema)
            user_query
        if statusIsSuccess output then
          let sql_query := (List.lookup "response" output).getD PyVal.none
          ((sql_query, execute_query sql_query (EngineInput.engine e)),
           [CallEvent.introspect, CallEvent.llmCall, CallEvent.sqlExec])
        else
          ((PyVal.none, (List.lookup "response" output).getD PyVal.none),
           [CallEvent.introspect, CallEvent.llmCall])

/-- Count of non-whitespace characters of a question (used to state claim
C4s wording). -/
def nonWsCount (s : String) : Nat :=
  (s.data.filter (fun c => !isPySpace c)).length

/-- Plain left-to-right concatenation of the rendered table blocks, as the
`schema += block` loop produces it. -/
def joinBlocks : List String → String
  | [] => ""
  | b :: bs => b ++ joinBlocks bs

/-! Concrete worlds used by the witness and counterexample theorems. -/

/-- A healthy SQLite engine with one table. -/
def egEngine : EngineData where
  dialectName := "sqlite"
  getTableNames := Except.ok ["employees"]
  mysqlShowCreate := fun _ => Except.ok Option.none
  sqliteMasterSql := fun _ =>
    Except.ok (some (some "CREATE TABLE employees (id INT, name TEXT)"))
  getColumns := fun _ => Except.ok []
  runQuery := fun _ => Except.ok ⟨["total_employees"], [["42"]]⟩

/-- The same engine on a database with zero tables. -/
def emptyEngine : EngineData :=
  { egEngine with getTableNames := Except.ok [] }

/-- An engine whose schema introspection raises. -/
def badSchemaEngine : EngineData :=
  { egEngine with getTableNames := Except.error "connection refused",
                  runQuery := fun _ => Except.ok ⟨["n"], [["1"]]⟩ }

/-- A fenced JSON success reply, as the completion service often returns. -/
def rawFencedSuccess : String :=
  "```json\n\x7b\"status\": \"success\", \"response\": \"SELECT COUNT(*) AS total_employees FROM employees;\"\x7d\n```"

def kvsFencedSuccess : List (String × PyVal) :=
  [("status", PyVal.str "success"),
   ("response", PyVal.str "SELECT COUNT(*) AS total_employees FROM employees;")]

/-- A clarification reply. -/
def rawClarification : String :=
  "\x7b\"status\": \"clarification_needed\", \"response\": \"Which date column?\"\x7d"

def kvsClarification : List (String × PyVal) :=
  [("status", PyVal.str "clarification_needed"),
   ("response", PyVal.str "Which date column?")]

/-- A bare-SQL reply wrapped in a sql fence. -/
def rawBareSql : String := "```sql\nSELECT name FROM employees;\n```"

/-- A reply that is neither JSON nor SQL. -/
def rawProse : String := "I cannot answer that."

/-! Helper lemmas. -/

theorem isPrefixOf_self (l : List Char) : List.isPrefixOf l l = true := by
  induction l with
  | nil => rfl
  | cons a as ih => simp [List.isPrefixOf, ih]

theorem isSubL_append (pre l : List Char) : isSubL l (pre ++ l) = true := by
  induction pre with
  | nil =>
      cases l with
      | nil => rfl
      | cons c cs => simp [isSubL, isPrefixOf_self]
  | cons p ps ih => simp [isSubL, ih]

theorem strContains_append_right (a b : String) :
    strContains (a ++ b) b = true := by
  unfold strContains
  rw [String.data_append]
  exact isSubL_append a.data b.data

theorem hasKey_of_lookup {k : String} {v : PyVal}
    {kvs : List (String × PyVal)} (h : List.lookup k kvs = some v) :
    hasKey k kvs = true := by
  unfold hasKey
  rw [h]
  rfl

theorem statusIsSuccess_iff (kvs : List (String × PyVal)) :
    statusIsSuccess kvs = true ↔ outcomeTag kvs = OutcomeTag.Success := by
  unfold statusIsSuccess outcomeTag
  cases hl : List.lookup "status" kvs with
  | none => simp
  | some v =>
      cases v with
      | str s =>
          by_cases h : s = "success"
          · simp [h]
          · simp [h]
            split <;> simp
      | none => simp
      | bool b => simp
      | num l => simp
      | list xs => simp
      | dict d => simp
      | frame d => simp

theorem statusIsSuccess_errDict (m : String) :
    statusIsSuccess (errDict m) = false := rfl

theorem outcomeTag_errDict (m : String) :
    outcomeTag (errDict m) = OutcomeTag.Error := rfl

theorem json_loads_empty : json_loads "" = Option.none := rfl

theorem get_sql_query_const_ok (raw prompt_text query : String) :
    get_sql_query (fun _ => Except.ok raw) prompt_text query =
      interpretResponse (cleanResponse raw) := rfl

theorem interpret_keys (cleaned : String) :
    hasKey "status" (interpretResponse cleaned) = true ∧
    hasKey "response" (interpretResponse cleaned) = true := by
  unfold interpretResponse
  cases hj : json_loads cleaned with
  | none =>
      by_cases he : cleaned = ""
      · simp only [he, if_true, if_pos rfl]
        exact ⟨rfl, rfl⟩
      · by_cases hv : sqlVerbCheck cleaned
        · simp only [he, hv, if_false, if_true, if_neg he, if_pos hv]
          exact ⟨rfl, rfl⟩
        · simp only [he, hv, if_neg he, Bool.false_eq_true, if_false]
          exact ⟨rfl, rfl⟩
  | some v =>
      cases v with
      | dict kvs =>
          by_cases hk : hasKey "status" kvs && hasKey "response" kvs
          · rw [Bool.and_eq_true] at hk
            simp [hk.1, hk.2]
          · simp only [if_neg hk]
            exact ⟨rfl, rfl⟩
      | none => exact ⟨rfl, rfl⟩
      | bool b => exact ⟨rfl, rfl⟩
      | num l => exact ⟨rfl, rfl⟩
      | str s => exact ⟨rfl, rfl⟩
      | list xs => exact ⟨rfl, rfl⟩
      | frame d => exact ⟨rfl, rfl⟩

theorem schemaLoop_eq (e : EngineData) (d : String) (stmt : String → String) :
    ∀ ts : List String,
      (∀ t ∈ ts, tableCreateStmt e d t = Except.ok (stmt t)) →
      schemaLoop e d ts =
        Except.ok (joinBlocks (ts.map (fun t => schemaBlock t (stmt t)))) := by
  intro ts
  induction ts with
  | nil => intro _; rfl
  | cons t ts ih =>
      intro h
      have ht : tableCreateStmt e d t = Except.ok (stmt t) :=
        h t (List.mem_cons_self t ts)
      have hts : ∀ u ∈ ts, tableCreateStmt e d u = Except.ok (stmt u) :=
        fun u hu => h u (List.mem_cons_of_mem t hu)
      unfold schemaLoop
      rw [ht, ih hts]
      rfl

/-! Claim theorems. -/

/-- C1: whenever the normalized completion text (whitespace stripped, fence
delimiters removed, leading case-insensitive "sql " token dropped) parses as
a JSON object with both a "status" and a "response" key and status is
"success", the parsing stage of `get_sql_query` returns that object as a
Success outcome whose SQL text is exactly the response value, verbatim —
independently of any fenced-code-block wrapping of the raw text. -/
theorem c1_success_verbatim (raw prompt_text query : String)
    (kvs : List (String × PyVal)) (v : PyVal)
    (hparse : json_loads (cleanResponse raw) = some (PyVal.dict kvs))
    (hstat : List.lookup "status" kvs = some (PyVal.str "success"))
    (hresp : List.lookup "response" kvs = some v) :
    get_sql_query (fun _ => Except.ok raw) prompt_text query = kvs ∧
    outcomeTag (get_sql_query (fun _ => Except.ok raw) prompt_text query) =
      OutcomeTag.Success ∧
    List.lookup "response"
      (get_sql_query (fun _ => Except.ok raw) prompt_text query) = some v := by
  have hout : get_sql_query (fun _ => Except.ok raw) prompt_text query = kvs := by
    rw [get_sql_query_const_ok]
    unfold interpretResponse
    rw [hparse]
    simp [hasKey_of_lookup hstat, hasKey_of_lookup hresp]
  refine ⟨hout, ?_, ?_⟩
  · rw [hout]
    unfold outcomeTag
    rw [hstat]
    simp
  · rw [hout, hresp]

theorem c1_witness :
    json_loads (cleanResponse rawFencedSuccess) =
      some (PyVal.dict kvsFencedSuccess) ∧
    get_sql_query (fun _ => Except.ok rawFencedSuccess) "p" "q" =
      kvsFencedSuccess ∧
    List.lookup "response"
      (get_sql_query (fun _ => Except.ok rawFencedSuccess) "p" "q") =
      some (PyVal.str "SELECT COUNT(*) AS total_employees FROM employees;") := by
  have h := c1_success_verbatim rawFencedSuccess "p" "q" kvsFencedSuccess
    (PyVal.str "SELECT COUNT(*) AS total_employees FROM employees;") rfl rfl rfl
  exact ⟨rfl, h.1, h.2.2⟩

/-- C2: whenever the normalized completion text parses as a JSON object
with both keys, the interpreter returns that object verbatim, and its tag is
determined by the status value: "success" gives Success,
"clarification_needed" gives ClarificationNeeded, anything else gives Error;
the tag is always one of exactly these three states. -/
theorem c2_status_tags (raw prompt_text query : String)
    (kvs : List (String × PyVal))
    (hparse : json_loads (cleanResponse raw) = some (PyVal.dict kvs))
    (hk1 : hasKey "status" kvs = true) (hk2 : hasKey "response" kvs = true) :
    get_sql_query (fun _ => Except.ok raw) prompt_text query = kvs ∧
    (List.lookup "status" kvs = some (PyVal.str "success") →
       outcomeTag kvs = OutcomeTag.Success) ∧
    (List.lookup "status" kvs = some (PyVal.str "clarification_needed") →
       outcomeTag kvs = OutcomeTag.ClarificationNeeded) ∧
    (∀ sv, List.lookup "status" kvs = some sv →
       sv ≠ PyVal.str "success" → sv ≠ PyVal.str "clarification_needed" →
       outcomeTag kvs = OutcomeTag.Error) ∧
    (outcomeTag kvs = OutcomeTag.Success ∨
     outcomeTag kvs = OutcomeTag.ClarificationNeeded ∨
     outcomeTag kvs = OutcomeTag.Error) := by
  refine ⟨?_, ?_, ?_, ?_, ?_⟩
  · rw [get_sql_query_const_ok]
    unfold interpretResponse
    rw [hparse]
    simp [hk1, hk2]
  · intro h
    unfold outcomeTag
    rw [h]
    simp
  · intro h
    unfold outcomeTag
    rw [h]
    simp
  · intro sv h hne1 hne2
    unfold outcomeTag
    rw [h]
    cases sv with
    | str s =>
        have h1 : ¬s = "success" := fun hs => hne1 (by rw [hs])
        have h2 : ¬s = "clarification_needed" := fun hs => hne2 (by rw [hs])
        simp [h1, h2]
    | none => rfl
    | bool b => rfl
    | num l => rfl
    | list xs => rfl
    | dict d => rfl
    | frame d => rfl
  · cases h : outcomeTag kvs
    · exact Or.inl rfl
    · exact Or.inr (Or.inl rfl)
    · exact Or.inr (Or.inr rfl)

theorem c2_witness :
    json_loads (cleanResponse rawClarification) =
      some (PyVal.dict kvsClarification) ∧
    get_sql_query (fun _ => Except.ok rawClarification) "p" "q" =
      kvsClarification ∧
    outcomeTag kvsClarification = OutcomeTag.ClarificationNeeded := by
  have h := c2_status_tags rawClarification "p" "q" kvsClarification rfl rfl rfl
  exact ⟨rfl, h.1, h.2.2.1 rfl⟩

/-- C3: whenever the normalized completion text is non-empty, fails JSON
parsing, and starts (case-insensitively) with one of the eight SQL verbs,
the interpreter returns a Success outcome carrying the normalized text
itself as the SQL candidate. -/
theorem c3_sql_fallback (raw prompt_text query : String)
    (hne : cleanResponse raw ≠ "")
    (hjson : json_loads (cleanResponse raw) = Option.none)
    (hverb : sqlVerbCheck (cleanResponse raw) = true) :
    get_sql_query (fun _ => Except.ok raw) prompt_text query =
      [("status", PyVal.str "success"),
       ("response", PyVal.str (cleanResponse raw))] ∧
    outcomeTag (get_sql_query (fun _ => Except.ok raw) prompt_text query) =
      OutcomeTag.Success := by
  have hout : get_sql_query (fun _ => Except.ok raw) prompt_text query =
      [("status", PyVal.str "success"),
       ("response", PyVal.str (cleanResponse raw))] := by
    rw [get_sql_query_const_ok]
    unfold interpretResponse
    rw [hjson]
    simp [hne, hverb]
  exact ⟨hout, by rw [hout]; rfl⟩

theorem c3_witness :
    cleanResponse rawBareSql = "SELECT name FROM employees;" ∧
    json_loads (cleanResponse rawBareSql) = Option.none ∧
    get_sql_query (fun _ => Except.ok rawBareSql) "p" "q" =
      [("status", PyVal.str "success"),
       ("response", PyVal.str "SELECT name FROM employees;")] := by
  have h := c3_sql_fallback rawBareSql "p" "q" (by decide) rfl rfl
  exact ⟨rfl, rfl, h.1⟩

/-- C5: whenever the normalized completion text is neither a JSON object
with both keys nor (JSON parsing having failed) verb-prefixed text, the
interpreter returns an Error outcome whose message contains the offending
normalized text; when the normalized text is empty the message is exactly
"Model returned empty response.". -/
theorem c5_error_paths (raw prompt_text query : String)
    (h1 : ∀ kvs, json_loads (cleanResponse raw) = some (PyVal.dict kvs) →
          ¬(hasKey "status" kvs = true ∧ hasKey "response" kvs = true))
    (h2 : json_loads (cleanResponse raw) = Option.none →
          sqlVerbCheck (cleanResponse raw) = false) :
    outcomeTag (get_sql_query (fun _ => Except.ok raw) prompt_text query) =
      OutcomeTag.Error ∧
    ∃ m, List.lookup "response"
          (get_sql_query (fun _ => Except.ok raw) prompt_text query) =
            some (PyVal.str m) ∧
      strContains m (cleanResponse raw) = true ∧
      (cleanResponse raw = "" → m = "Model returned empty response.") := by
  rw [get_sql_query_const_ok]
  unfold interpretResponse
  cases hj : json_loads (cleanResponse raw) with
  | none =>
      by_cases he : cleanResponse raw = ""
      · simp only [he, if_pos rfl]
        exact ⟨rfl, "Model returned empty response.", rfl, rfl, fun _ => rfl⟩
      · have hv : sqlVerbCheck (cleanResponse raw) = false := h2 hj
        simp only [if_neg he, hv, Bool.false_eq_true, if_false]
        refine ⟨rfl, "Model returned unexpected format:\n" ++ cleanResponse raw,
          rfl, strContains_append_right _ _, fun hc => absurd hc he⟩
  | some v =>
      have hne : cleanResponse raw ≠ "" := by
        intro he
        rw [he, json_loads_empty] at hj
        exact Option.noConfusion hj
      cases v with
      | dict kvs =>
          have hk : (hasKey "status" kvs && hasKey "response" kvs) = false := by
            cases hb : hasKey "status" kvs && hasKey "response" kvs
            · rfl
            · rw [Bool.and_eq_true] at hb
              exact absurd ⟨hb.1, hb.2⟩ (h1 kvs hj)
          simp only [hk, Bool.false_eq_true, if_false]
          exact ⟨rfl, "Model returned JSON but missing keys: " ++ cleanResponse raw,
            rfl, strContains_append_right _ _, fun hc => absurd hc hne⟩
      | none =>
          exact ⟨rfl, "Model returned JSON but missing keys: " ++ cleanResponse raw,
            rfl, strContains_append_right _ _, fun hc => absurd hc hne⟩
      | bool b =>
          exact ⟨rfl, "Model returned JSON but missing keys: " ++ cleanResponse raw,
            rfl, strContains_append_right _ _, fun hc => absurd hc hne⟩
      | num l =>
          exact ⟨rfl, "Model returned JSON but missing keys: " ++ cleanResponse raw,
            rfl, strContains_append_right _ _, fun hc => absurd hc hne⟩
      | str s =>
          exact ⟨rfl, "Model returned JSON but missing keys: " ++ cleanResponse raw,
            rfl, strContains_append_right _ _, fun hc => absurd hc hne⟩
      | list xs =>
          exact ⟨rfl, "Model returned JSON but missing keys: " ++ cleanResponse raw,
            rfl, strContains_append_right _ _, fun hc => absurd hc hne⟩
      | frame d =>
          exact ⟨rfl, "Model returned JSON but missing keys: " ++ cleanResponse raw,
            rfl, strContains_append_right _ _, fun hc => absurd hc hne⟩

theorem c5_witness :
    json_loads (cleanResponse rawProse) = Option.none ∧
    outcomeTag (get_sql_query (fun _ => Except.ok rawProse) "p" "q") =
      OutcomeTag.Error ∧
    ∃ m, List.lookup "response"
          (get_sql_query (fun _ => Except.ok rawProse) "p" "q") =
            some (PyVal.str m) ∧
      strContains m (cleanResponse rawProse) = true ∧
      (cleanResponse rawProse = "" → m = "Model returned empty response.") := by
  have h := c5_error_paths rawProse "p" "q" (fun _ hk => nomatch hk)
    (fun _ => rfl)
  exact ⟨rfl, h.1, h.2⟩

/-- C9: on every return path — a raised completion-service exception, a
JSON reply of any shape, or a plain-text reply — `get_sql_query` returns a
dictionary that contains both the "status" and the "response" key, so
downstream lookups of these keys never fail. -/
theorem c9_always_keys (g : GenaiClient) (prompt_text query : String) :
    hasKey "status" (get_sql_query g prompt_text query) = true ∧
    hasKey "response" (get_sql_query g prompt_text query) = true := by
  unfold get_sql_query
  cases hg : g (llmContents prompt_text query) with
  | error e => exact ⟨rfl, rfl⟩
  | ok t => exact interpret_keys (cleanResponse t)

/-- C4 counterexample: the question "a b" has only 2 non-whitespace
characters, yet `text2sql` does not return the warning — it introspects the
database and calls the completion service, because the source guard is
`len(user_query.strip()) < 3` and `"a b".strip()` has length 3 (inner
whitespace counts). -/
theorem c4_counterexample :
    nonWsCount "a b" < 3 ∧
    text2sql (fun _ => Except.error "service down") "a b"
        (EngineInput.engine egEngine) =
      ((PyVal.none, PyVal.str "AI communication error: service down"),
       [CallEvent.introspect, CallEvent.llmCall]) ∧
    ([CallEvent.introspect, CallEvent.llmCall] : List CallEvent) ≠ [] ∧
    "AI communication error: service down" ≠
      "⚠️ Please enter a meaningful question." :=
  ⟨by decide, rfl, by decide, by decide⟩

/-- C4 (amended): for every question that is empty, or whose length after
stripping leading and trailing whitespace is below 3 (inner whitespace
counts toward the length), `text2sql` returns the warning pair immediately,
with no database access and no completion-service call. -/
theorem c4_short_question (g : GenaiClient) (q : String) (engine : EngineInput)
    (h : q = "" ∨ (pyStrip q).data.length < 3) :
    text2sql g q engine =
      ((PyVal.none, PyVal.str "⚠️ Please enter a meaningful question."), []) := by
  unfold text2sql
  rw [if_pos h]

theorem c4_witness :
    ((" hi " : String) = "" ∨ (pyStrip " hi ").data.length < 3) ∧
    text2sql (fun _ => Except.error "x") " hi " (EngineInput.engine egEngine) =
      ((PyVal.none, PyVal.str "⚠️ Please enter a meaningful question."), []) :=
  ⟨Or.inr (by decide),
   c4_short_question (fun _ => Except.error "x") " hi "
     (EngineInput.engine egEngine) (Or.inr (by decide))⟩

/-- C6: once the question passes validation, the orchestrator dispatches on
the interpreter outcome: a non-Success tag yields `(None, responseMessage)`
and the executor is never invoked, a Success tag yields the pair of the SQL
value and the executor result, with the executor invoked exactly then. -/
theorem c6_orchestrator_dispatch (g : GenaiClient) (q : String)
    (e : EngineData) (out : List (String × PyVal))
    (hq : ¬(q = "" ∨ (pyStrip q).data.length < 3))
    (hout : get_sql_query g
        (contextualPrompt (dbTypeName (pyLower e.dialectName))
          (get_db_schema (EngineInput.engine e))) q = out) :
    (outcomeTag out ≠ OutcomeTag.Success →
       text2sql g q (EngineInput.engine e) =
         ((PyVal.none, (List.lookup "response" out).getD PyVal.none),
          [CallEvent.introspect, CallEvent.llmCall])) ∧
    (outcomeTag out = OutcomeTag.Success →
       text2sql g q (EngineInput.engine e) =
         (((List.lookup "response" out).getD PyVal.none,
           execute_query ((List.lookup "response" out).getD PyVal.none)
             (EngineInput.engine e)),
          [CallEvent.introspect, CallEvent.llmCall, CallEvent.sqlExec])) := by
  unfold text2sql
  rw [if_neg hq]
  dsimp only
  rw [hout]
  constructor
  · intro hne
    have hs : statusIsSuccess out = false := by
      cases hb : statusIsSuccess out
      · rfl
      · exact absurd ((statusIsSuccess_iff out).mp hb) hne
    simp [hs]
  · intro hsucc
    have hs : statusIsSuccess out = true := (statusIsSuccess_iff out).mpr hsucc
    simp [hs]

theorem c6_witness :
    text2sql (fun _ => Except.ok rawClarification) "How many employees?"
        (EngineInput.engine egEngine) =
      ((PyVal.none, PyVal.str "Which date column?"),
       [CallEvent.introspect, CallEvent.llmCall]) :=
  (c6_orchestrator_dispatch (fun _ => Except.ok rawClarification)
      "How many employees?" egEngine kvsClarification
      (by decide) rfl).1 (by decide)

/-- C7 counterexample: a schema-introspection exception is caught and
stringified, but that string is NOT delivered in the returned pair — it is
embedded in the prompt and the pipeline continues; when the model then
returns SQL, `text2sql` returns `(sqlText, result)`, not `(None, message)`. -/
theorem c7_counterexample :
    badSchemaEngine.getTableNames = Except.error "connection refused" ∧
    text2sql (fun _ => Except.ok "SELECT 1;") "list all rows"
        (EngineInput.engine badSchemaEngine) =
      ((PyVal.str "SELECT 1;", PyVal.frame ⟨["n"], [["1"]]⟩),
       [CallEvent.introspect, CallEvent.llmCall, CallEvent.sqlExec]) ∧
    PyVal.str "SELECT 1;" ≠ PyVal.none :=
  ⟨rfl, rfl, fun h => PyVal.noConfusion h⟩

/-- C7 (amended): `text2sql` always returns a well-formed pair; every
component failure is caught at its own boundary and stringified.  A
completion-service exception is delivered as `(None, "AI communication
error: ...")`; an SQL-execution exception is delivered as the second
component next to the SQL text; a schema-introspection exception is
converted to an error string that is embedded into the prompt (the pipeline
continues, so it is not by itself returned in the pair). -/
theorem c7_boundary_strings (g : GenaiClient) (q : String) (e : EngineData)
    (hq : ¬(q = "" ∨ (pyStrip q).data.length < 3)) :
    (∀ m, g (llmContents
          (contextualPrompt (dbTypeName (pyLower e.dialectName))
            (get_db_schema (EngineInput.engine e))) q) = Except.error m →
       text2sql g q (EngineInput.engine e) =
         ((PyVal.none, PyVal.str ("AI communication error: " ++ m)),
          [CallEvent.introspect, CallEvent.llmCall])) ∧
    (∀ s, e.getTableNames = Except.error s →
       get_db_schema (EngineInput.engine e) =
         "❌ Error loading DB schema: " ++ s) ∧
    (∀ sql msg,
       statusIsSuccess (get_sql_query g
           (contextualPrompt (dbTypeName (pyLower e.dialectName))
             (get_db_schema (EngineInput.engine e))) q) = true →
       (List.lookup "response" (get_sql_query g
           (contextualPrompt (dbTypeName (pyLower e.dialectName))
             (get_db_schema (EngineInput.engine e))) q)).getD PyVal.none = sql →
       e.runQuery sql = Except.error msg →
       text2sql g q (EngineInput.engine e) =
         ((sql, PyVal.str ("❌ SQL Execution Error: " ++ msg)),
          [CallEvent.introspect, CallEvent.llmCall, CallEvent.sqlExec])) := by
  refine ⟨?_, ?_, ?_⟩
  · intro m hg
    unfold text2sql
    rw [if_neg hq]
    dsimp only
    unfold get_sql_query
    rw [hg]
    rfl
  · intro s hs
    unfold get_db_schema
    dsimp only
    rw [hs]
  · intro sql msg h1 h2 h3
    unfold text2sql
    rw [if_neg hq]
    dsimp only
    simp only [h1, if_true]
    rw [h2]
    unfold execute_query
    dsimp only
    rw [h3]

theorem c7_witness :
    text2sql (fun _ => Except.error "quota exceeded") "show all employees"
        (EngineInput.engine egEngine) =
      ((PyVal.none, PyVal.str "AI communication error: quota exceeded"),
       [CallEvent.introspect, CallEvent.llmCall]) :=
  (c7_boundary_strings (fun _ => Except.error "quota exceeded")
      "show all employees" egEngine (by decide)).1 "quota exceeded" rfl

/-- C8: when the schema introspection reports zero tables, `get_db_schema`
returns the no-tables warning string (and not an error); otherwise, with the
per-table CREATE-statement fetch yielding `stmt t`, it returns exactly the
concatenation, in enumeration order, of one block per table — the table
name heading followed by the statement inside a fenced code block, each
block terminated by a blank line. -/
theorem c8_schema_blocks (e : EngineData) (tables : List String)
    (stmt : String → String)
    (ht : e.getTableNames = Except.ok tables)
    (hs : ∀ t ∈ tables,
        tableCreateStmt e (pyLower e.dialectName) t = Except.ok (stmt t)) :
    (tables = [] →
       get_db_schema (EngineInput.engine e) =
         "⚠️ No tables found in the connected database." ∧
       strContains (pyLower (get_db_schema (EngineInput.engine e)))
         "no tables found" = true) ∧
    (tables ≠ [] →
       get_db_schema (EngineInput.engine e) =
         joinBlocks (tables.map (fun t => schemaBlock t (stmt t)))) := by
  constructor
  · intro he
    subst he
    have hw : get_db_schema (EngineInput.engine e) =
        "⚠️ No tables found in the connected database." := by
      unfold get_db_schema
      dsimp only
      rw [ht]
      rfl
    refine ⟨hw, ?_⟩
    rw [hw]
    decide
  · intro hne
    unfold get_db_schema
    dsimp only
    rw [ht]
    dsimp only
    rw [if_neg hne, schemaLoop_eq e (pyLower e.dialectName) stmt tables hs]

theorem c8_witness :
    egEngine.getTableNames = Except.ok ["employees"] ∧
    get_db_schema (EngineInput.engine egEngine) =
      joinBlocks (["employees"].map (fun t =>
        schemaBlock t "CREATE TABLE employees (id INT, name TEXT)")) ∧
    emptyEngine.getTableNames = Except.ok [] ∧
    get_db_schema (EngineInput.engine emptyEngine) =
      "⚠️ No tables found in the connected database." := by
  refine ⟨rfl, ?_, rfl, ?_⟩
  · exact (c8_schema_blocks egEngine ["employees"]
      (fun _ => "CREATE TABLE employees (id INT, name TEXT)") rfl
      (by intro t ht; rw [List.mem_singleton] at ht; subst ht; rfl)).2
      (by decide)
  · exact ((c8_schema_blocks emptyEngine [] (fun t => t) rfl
      (by intro t ht; cases ht)).1 rfl).1

/-- C10: a non-Engine value passed as the connection never raises:
`get_db_schema` returns its invalid-engine string, `execute_query` returns
an error string naming the received type, and `text2sql` (once the question
passes validation) returns the internal-error pair without touching the
database or the completion service. -/
theorem c10_not_engine (typeName q : String) (g : GenaiClient) (v : PyVal)
    (hq : ¬(q = "" ∨ (pyStrip q).data.length < 3)) :
    get_db_schema (EngineInput.notEngine typeName) =
      "❌ Invalid engine passed to get_db_schema()" ∧
    execute_query v (EngineInput.notEngine typeName) =
      PyVal.str ("❌ execute_query expected SQLAlchemy Engine, got " ++
        typeName) ∧
    text2sql g q (EngineInput.notEngine typeName) =
      ((PyVal.none,
        PyVal.str "❌ Internal error: engine is not a SQLAlchemy Engine."),
       []) := by
  refine ⟨rfl, rfl, ?_⟩
  unfold text2sql
  rw [if_neg hq]

theorem c10_witness :
    get_db_schema (EngineInput.notEngine "<class NoneType>") =
      "❌ Invalid engine passed to get_db_schema()" ∧
    execute_query PyVal.none (EngineInput.notEngine "<class NoneType>") =
      PyVal.str ("❌ execute_query expected SQLAlchemy Engine, got " ++
        "<class NoneType>") ∧
    text2sql (fun _ => Except.ok "x") "count employees"
        (EngineInput.notEngine "<class NoneType>") =
      ((PyVal.none,
        PyVal.str "❌ Internal error: engine is not a SQLAlchemy Engine."),
       []) :=
  c10_not_engine "<class NoneType>" "count employees"
    (fun _ => Except.ok "x") PyVal.none (by decide)
